import Mathlib

/-!
Shallow embedding of the quota-aware admission controller of
`app/services/quota_manager.py` (class `QuotaManager`), together with the
slice of `app/infrastructure/cache.py` it relies on.

Modelling conventions:
* Wall-clock instants (`time.time()` and `datetime.now(timezone.utc)`) are
  rationals counting seconds since the Unix epoch.  A UTC `datetime`'s
  calendar date is its epoch-day index and its `.hour` is the epoch-hour
  index modulo 24, so both comparisons in `_should_reset_timeframe` are
  exact integer arithmetic on those indices.
* The Redis-backed Window Store is a record of the two keys the quota
  manager uses (`youtube_quota:daily`, `youtube_quota:hourly`), plus an
  `available` flag: when Redis is unreachable, `cache_get_json` returns
  `None` (every exception branch does) and `cache_set_json` returns
  `False` without writing — modelled by reads yielding `none` and writes
  being dropped.  JSON (de)serialisation in `_save_usage` /
  `_get_current_usage` round-trips every field, so the store holds
  `QuotaUsage` values directly.  TTL expiry of a key is the same
  observable as the key being absent, which the `Option` already covers;
  the `ttl` argument is kept only to mirror the call sites.
* Python ints are `ℕ` (the counters are only ever incremented) and the
  reason / warning strings are inductive tags carrying the numbers that
  are interpolated into them.
-/

/-- Enum `QuotaType`: YouTube API quota types. -/
inductive QuotaType
  | VIDEO_STATS
  | CHANNEL_INFO
  | CHANNEL_SEARCH
  | CHANNEL_VIDEOS
  | VIDEO_SEARCH
deriving DecidableEq, Repr

/-- Cost `.value` of each `QuotaType` member. -/
def QuotaType.value : QuotaType → ℕ
  | .VIDEO_STATS => 1
  | .CHANNEL_INFO => 1
  | .CHANNEL_SEARCH => 100
  | .CHANNEL_VIDEOS => 100
  | .VIDEO_SEARCH => 100

/-- The two timeframe keys the manager tracks (`"daily"` / `"hourly"`). -/
inductive Timeframe
  | daily
  | hourly
deriving DecidableEq, Repr

/-- Dataclass `QuotaUsage`: one durable usage window record. -/
structure QuotaUsage where
  total_quota_used : ℕ
  requests_made : ℕ
  last_reset_time : ℚ
  daily_quota_used : ℕ
  hourly_quota_used : ℕ
  errors_count : ℕ
  rate_limited_count : ℕ
deriving DecidableEq, Repr

/-- A `QuotaUsage()` with all-default fields, constructed at instant `now`
(the dataclass default for `last_reset_time` is `datetime.now(timezone.utc)`). -/
def freshUsage (now : ℚ) : QuotaUsage :=
  { total_quota_used := 0
    requests_made := 0
    last_reset_time := now
    daily_quota_used := 0
    hourly_quota_used := 0
    errors_count := 0
    rate_limited_count := 0 }

/-- Static configuration constants of class `QuotaLimits`. -/
structure QuotaLimits where
  DAILY_QUOTA_LIMIT : ℕ
  HOURLY_QUOTA_LIMIT : ℕ
  REQUESTS_PER_MINUTE : ℕ
  REQUESTS_PER_SECOND : ℕ
  DAILY_WARNING_THRESHOLD : ℕ
  HOURLY_WARNING_THRESHOLD : ℕ
deriving DecidableEq, Repr

/-- The constant values hard-coded in class `QuotaLimits`. -/
def defaultLimits : QuotaLimits :=
  { DAILY_QUOTA_LIMIT := 10000
    HOURLY_QUOTA_LIMIT := 1000
    REQUESTS_PER_MINUTE := 300
    REQUESTS_PER_SECOND := 5
    DAILY_WARNING_THRESHOLD := 8000
    HOURLY_WARNING_THRESHOLD := 800 }

/-- The durable Window Store: the two quota keys plus reachability. -/
structure Store where
  daily : Option QuotaUsage
  hourly : Option QuotaUsage
  available : Bool
deriving DecidableEq, Repr

/-- Model of `cache.cache_get_json` restricted to the quota keys: `none` on a miss
and `none` on every Redis-error branch (store unreachable). -/
def cache_get_json (st : Store) (tf : Timeframe) : Option QuotaUsage :=
  if st.available then
    match tf with
    | .daily => st.daily
    | .hourly => st.hourly
  else none

/-- Model of `cache.cache_set_json`: writes the value under the key with a TTL, or
drops the write when the store is unreachable.  TTL expiry later on shows
up as the key being absent, already covered by `Option`, so `ttl` is
recorded nowhere. -/
def cache_set_json (st : Store) (tf : Timeframe) (u : QuotaUsage) (ttl : ℕ) : Store :=
  if st.available then
    match tf with
    | .daily => { st with daily := some u }
    | .hourly => { st with hourly := some u }
  else st

/-- Model of `QuotaManager._save_usage`: serialise and store (round-trips exactly). -/
def save_usage (st : Store) (usage : QuotaUsage) (tf : Timeframe) (ttl : ℕ) : Store :=
  cache_set_json st tf usage ttl

/-- Model of `QuotaManager._get_current_usage`: the cached record if present, else a
fresh `QuotaUsage()` built at instant `now` (not yet persisted). -/
def get_current_usage (st : Store) (tf : Timeframe) (now : ℚ) : QuotaUsage :=
  match cache_get_json st tf with
  | some u => u
  | none => freshUsage now

/-- Epoch-day index of a UTC instant: `datetime.date()` comparisons on UTC
datetimes coincide with comparisons of this index. -/
def epoch_day (t : ℚ) : ℤ := ⌊t / 86400⌋

/-- The `datetime.hour` of a UTC instant: the epoch-hour index modulo 24. -/
def hour_of_day (t : ℚ) : ℤ := ⌊t / 3600⌋ % 24

/-- Model of `QuotaManager._should_reset_timeframe`: daily compares calendar dates
with `>`, hourly compares wall-clock hour-of-day with `!=`. -/
def should_reset_timeframe (usage : QuotaUsage) (tf : Timeframe) (now : ℚ) : Bool :=
  match tf with
  | .daily => epoch_day now > epoch_day usage.last_reset_time
  | .hourly => hour_of_day now ≠ hour_of_day usage.last_reset_time

/-- Model of `QuotaManager._reset_timeframe_if_needed`: read, reset-and-persist a
fresh window if the timeframe rolled over, else return the record as read. -/
def reset_timeframe_if_needed (st : Store) (tf : Timeframe) (now : ℚ) :
    QuotaUsage × Store :=
  let usage := get_current_usage st tf now
  if should_reset_timeframe usage tf now then
    let usage' := freshUsage now
    let ttl : ℕ := match tf with | .daily => 86400 | .hourly => 3600
    (usage', save_usage st usage' tf ttl)
  else (usage, st)

/-- In-memory state of a `QuotaManager` instance: the shared store handle,
`_request_times`, and `_last_request_time` (initially `0.0`). -/
structure ManagerState where
  store : Store
  request_times : List ℚ
  last_request_time : ℚ
deriving DecidableEq, Repr

/-- The denial reasons produced by `check_quota_availability`, as tags
carrying the numbers interpolated into the f-strings. -/
inductive Reason
  | ok
  | daily_exceeded (used limit : ℕ)
  | hourly_exceeded (used limit : ℕ)
  | minute_rate_exceeded (n limit : ℕ)
  | burst_exceeded (n limit : ℕ)
deriving DecidableEq, Repr

/-- Model of `QuotaManager.check_quota_availability(quota_cost)` at instant `now`:
rolls both timeframes over, then checks daily budget, hourly budget,
per-minute count (after pruning `_request_times` to 60 s) and per-second
count, in that order, short-circuiting on the first failure. -/
def check_quota_availability (L : QuotaLimits) (s : ManagerState)
    (quota_cost : ℕ) (now : ℚ) : (Bool × Reason) × ManagerState :=
  let dres := reset_timeframe_if_needed s.store .daily now
  let daily_usage := dres.1
  let hres := reset_timeframe_if_needed dres.2 .hourly now
  let hourly_usage := hres.1
  let st := hres.2
  if daily_usage.daily_quota_used + quota_cost > L.DAILY_QUOTA_LIMIT then
    ((false, .daily_exceeded daily_usage.daily_quota_used L.DAILY_QUOTA_LIMIT),
      { s with store := st })
  else if hourly_usage.hourly_quota_used + quota_cost > L.HOURLY_QUOTA_LIMIT then
    ((false, .hourly_exceeded hourly_usage.hourly_quota_used L.HOURLY_QUOTA_LIMIT),
      { s with store := st })
  else
    let times := s.request_times.filter (fun t => now - t < 60)
    if times.length ≥ L.REQUESTS_PER_MINUTE then
      ((false, .minute_rate_exceeded times.length L.REQUESTS_PER_MINUTE),
        { store := st, request_times := times,
          last_request_time := s.last_request_time })
    else
      let recent := times.filter (fun t => now - t < 1)
      if recent.length ≥ L.REQUESTS_PER_SECOND then
        ((false, .burst_exceeded recent.length L.REQUESTS_PER_SECOND),
          { store := st, request_times := times,
            last_request_time := s.last_request_time })
      else
        ((true, .ok),
          { store := st, request_times := times,
            last_request_time := s.last_request_time })

/-- Model of `QuotaManager.get_required_delay()` at instant `now`: remaining
inter-call spacing below 200 ms, else load-based fixed delays. -/
def get_required_delay (L : QuotaLimits) (s : ManagerState) (now : ℚ) :
    ℚ × ManagerState :=
  let min_delay : ℚ := 0.2
  let time_since_last := now - s.last_request_time
  if time_since_last < min_delay then
    (min_delay - time_since_last, s)
  else
    let times := s.request_times.filter (fun t => now - t < 60)
    if (times.length : ℚ) > (L.REQUESTS_PER_MINUTE : ℚ) * 0.8 then
      (1, { s with request_times := times })
    else if (times.length : ℚ) > (L.REQUESTS_PER_MINUTE : ℚ) * 0.6 then
      (0.5, { s with request_times := times })
    else
      (0, { s with request_times := times })

/-- A threshold warning logged by `_check_warning_thresholds`, tagged with
the scope and the numbers put into the log record. -/
inductive Warning
  | daily (used limit : ℕ)
  | hourly (used limit : ℕ)
deriving DecidableEq, Repr

/-- Model of `QuotaManager._check_warning_thresholds`: warn per scope when usage is
at/above the warning threshold but still below the hard limit.  Pure: it
only produces log events. -/
def check_warning_thresholds (L : QuotaLimits)
    (daily_usage hourly_usage : QuotaUsage) : List Warning :=
  (if daily_usage.daily_quota_used ≥ L.DAILY_WARNING_THRESHOLD then
    if daily_usage.daily_quota_used < L.DAILY_QUOTA_LIMIT then
      [Warning.daily daily_usage.daily_quota_used L.DAILY_QUOTA_LIMIT]
    else []
  else []) ++
  (if hourly_usage.hourly_quota_used ≥ L.HOURLY_WARNING_THRESHOLD then
    if hourly_usage.hourly_quota_used < L.HOURLY_QUOTA_LIMIT then
      [Warning.hourly hourly_usage.hourly_quota_used L.HOURLY_QUOTA_LIMIT]
    else []
  else [])

/-- The per-scope increments `record_request` performs on a usage record:
`total_quota_used`, the scope's own used counter, `requests_made`, and
`errors_count` on failure. -/
def bump_usage (u : QuotaUsage) (tf : Timeframe) (quota_cost : ℕ)
    (success : Bool) : QuotaUsage :=
  let u1 := { u with
    total_quota_used := u.total_quota_used + quota_cost
    requests_made := u.requests_made + 1
    errors_count := u.errors_count + (if success then 0 else 1) }
  match tf with
  | .daily => { u1 with daily_quota_used := u1.daily_quota_used + quota_cost }
  | .hourly => { u1 with hourly_quota_used := u1.hourly_quota_used + quota_cost }

/-- Model of `QuotaManager.record_request(quota_type, success)` at instant `now`:
append the timestamp, update and save the daily then the hourly record
(reading each with `_get_current_usage`, without any rollover check), and
return the threshold warnings computed from the updated records. -/
def record_request (L : QuotaLimits) (s : ManagerState) (quota_type : QuotaType)
    (success : Bool) (now : ℚ) : List Warning × ManagerState :=
  let quota_cost := quota_type.value
  let times := s.request_times ++ [now]
  let daily_usage := bump_usage (get_current_usage s.store .daily now) .daily quota_cost success
  let st1 := save_usage s.store daily_usage .daily 86400
  let hourly_usage := bump_usage (get_current_usage st1 .hourly now) .hourly quota_cost success
  let st2 := save_usage st1 hourly_usage .hourly 3600
  let warnings := check_warning_thresholds L daily_usage hourly_usage
  (warnings, { store := st2, request_times := times, last_request_time := now })

/-! ## Spec-side vocabulary and helper lemmas -/

/-- Spec §4.2 `countWithin`: number of retained burst-tracker timestamps
within `horizon` seconds of `now`. -/
def count_within (times : List ℚ) (now horizon : ℚ) : ℕ :=
  (times.filter (fun t => now - t < horizon)).length

/-- Spec §4.1 / §9: the monotonically increasing epoch window index
`floor(unixTime / windowLengthSeconds)` that the spec mandates for
rollover detection. -/
def epoch_window_index (window_len t : ℚ) : ℤ := ⌊t / window_len⌋

/-- The daily usage record an admission check decides on (after lazy
rollover). -/
def daily_after_rollover (st : Store) (now : ℚ) : QuotaUsage :=
  (reset_timeframe_if_needed st .daily now).1

/-- The hourly usage record an admission check decides on (after both lazy
rollovers, in program order). -/
def hourly_after_rollover (st : Store) (now : ℚ) : QuotaUsage :=
  (reset_timeframe_if_needed (reset_timeframe_if_needed st .daily now).2 .hourly now).1

/-- Python `round` (round-half-to-even) on a rational. -/
def round_half_even (q : ℚ) : ℤ :=
  if q - ⌊q⌋ < 1/2 then ⌊q⌋
  else if 1/2 < q - ⌊q⌋ then ⌊q⌋ + 1
  else if ⌊q⌋ % 2 = 0 then ⌊q⌋ else ⌊q⌋ + 1

/-- Python `round(x, 1)`: one decimal place. -/
def round1 (q : ℚ) : ℚ := (round_half_even (q * 10) : ℚ) / 10

/-- One scope's entry in the dict returned by `get_quota_status`. -/
structure ScopeStatus where
  used : ℕ
  limit : ℕ
  remaining : ℤ
  percentage : ℚ
  requests_made : ℕ
  errors : ℕ
deriving DecidableEq, Repr

/-- The `rate_limiting` entry of the status dict. -/
structure BurstStatus where
  requests_last_minute : ℕ
  limit_per_minute : ℕ
  requests_last_second : ℕ
  limit_per_second : ℕ
deriving DecidableEq, Repr

/-- The dict returned by `get_quota_status`. -/
structure QuotaStatus where
  daily : ScopeStatus
  hourly : ScopeStatus
  rate_limiting : BurstStatus
deriving DecidableEq, Repr

/-- Model of `QuotaManager.get_quota_status()` at instant `now`: rolls both
timeframes over (persisting a fresh window if one expired), prunes
`_request_times` to the last 60 s, and returns the figures. -/
def get_quota_status (L : QuotaLimits) (s : ManagerState) (now : ℚ) :
    QuotaStatus × ManagerState :=
  let dres := reset_timeframe_if_needed s.store .daily now
  let hres := reset_timeframe_if_needed dres.2 .hourly now
  let daily_usage := dres.1
  let hourly_usage := hres.1
  let times := s.request_times.filter (fun t => now - t < 60)
  ({ daily := { used := daily_usage.daily_quota_used
                limit := L.DAILY_QUOTA_LIMIT
                remaining := (L.DAILY_QUOTA_LIMIT : ℤ) - daily_usage.daily_quota_used
                percentage := round1 ((daily_usage.daily_quota_used : ℚ) /
                  (L.DAILY_QUOTA_LIMIT : ℚ) * 100)
                requests_made := daily_usage.requests_made
                errors := daily_usage.errors_count }
     hourly := { used := hourly_usage.hourly_quota_used
                 limit := L.HOURLY_QUOTA_LIMIT
                 remaining := (L.HOURLY_QUOTA_LIMIT : ℤ) - hourly_usage.hourly_quota_used
                 percentage := round1 ((hourly_usage.hourly_quota_used : ℚ) /
                   (L.HOURLY_QUOTA_LIMIT : ℚ) * 100)
                 requests_made := hourly_usage.requests_made
                 errors := hourly_usage.errors_count }
     rate_limiting := { requests_last_minute := times.length
                        limit_per_minute := L.REQUESTS_PER_MINUTE
                        requests_last_second := (times.filter (fun t => now - t < 1)).length
                        limit_per_second := L.REQUESTS_PER_SECOND } },
   { store := hres.2, request_times := times,
     last_request_time := s.last_request_time })

/-- Iterated `record_request`: one `(quota_type, success, instant)` triple
per recorded call. -/
def run_records (L : QuotaLimits) (s : ManagerState) :
    List (QuotaType × Bool × ℚ) → ManagerState
  | [] => s
  | c :: rest => run_records L (record_request L s c.1 c.2.1 c.2.2).2 rest

/-- Spec §8: the sum of the costs of a sequence of recorded calls. -/
def total_cost (calls : List (QuotaType × Bool × ℚ)) : ℕ :=
  (calls.map (fun c => c.1.value)).sum

/-- Spec §8: the number of failed calls in a sequence of recorded calls. -/
def failure_count (calls : List (QuotaType × Bool × ℚ)) : ℕ :=
  calls.countP (fun c => !c.2.1)

/-- The timestamps of a sequence of recorded calls, in order. -/
def call_times (calls : List (QuotaType × Bool × ℚ)) : List ℚ :=
  calls.map (fun c => c.2.2)

/-- Every durable window record present in the store has
`rate_limited_count = 0`. -/
def rlc_zero (st : Store) : Prop :=
  (∀ u, st.daily = some u → u.rate_limited_count = 0)
  ∧ (∀ u, st.hourly = some u → u.rate_limited_count = 0)

theorem floor_div_eq (t d : ℚ) (n : ℤ) (hd : 0 < d) (h1 : (n : ℚ) * d ≤ t)
    (h2 : t < ((n : ℚ) + 1) * d) : ⌊t / d⌋ = n := by
  rw [Int.floor_eq_iff]
  constructor
  · rw [le_div_iff₀ hd]
    exact h1
  · rw [div_lt_iff₀ hd]
    linarith

theorem filter_within_filter (times : List ℚ) (now a b : ℚ) (hab : a ≤ b) :
    (times.filter (fun t => now - t < b)).filter (fun t => now - t < a)
      = times.filter (fun t => now - t < a) := by
  induction times with
  | nil => rfl
  | cons x l ih =>
      simp only [List.filter_cons]
      by_cases hx : now - x < a
      · have hxb : now - x < b := lt_of_lt_of_le hx hab
        simp [hx, hxb, ih]
      · by_cases hxb : now - x < b <;> simp [hx, hxb, ih]

/-- Claim C1: For every declared cost and every state, `check_quota_availability`
evaluates the four limits in order — daily, hourly, per-minute, per-second —
short-circuiting on the first failure: it denies with the daily reason iff
`dailyUsed + cost > dailyLimit`; otherwise with the hourly reason iff
`hourlyUsed + cost > hourlyLimit`; otherwise iff the count of retained
timestamps within 60 s of now is ≥ the per-minute limit; otherwise iff the
count within 1 s is ≥ the per-second limit; and it allows exactly when all
four have headroom (so `dailyUsed + cost = dailyLimit` is still allowed). -/
theorem check_admission_layered (L : QuotaLimits) (s : ManagerState)
    (cost : ℕ) (now : ℚ) :
    ((check_quota_availability L s cost now).1 =
        (false, Reason.daily_exceeded (daily_after_rollover s.store now).daily_quota_used
          L.DAILY_QUOTA_LIMIT)
      ↔ (daily_after_rollover s.store now).daily_quota_used + cost > L.DAILY_QUOTA_LIMIT)
    ∧ ((check_quota_availability L s cost now).1 =
        (false, Reason.hourly_exceeded (hourly_after_rollover s.store now).hourly_quota_used
          L.HOURLY_QUOTA_LIMIT)
      ↔ (¬ (daily_after_rollover s.store now).daily_quota_used + cost > L.DAILY_QUOTA_LIMIT
          ∧ (hourly_after_rollover s.store now).hourly_quota_used + cost > L.HOURLY_QUOTA_LIMIT))
    ∧ ((check_quota_availability L s cost now).1 =
        (false, Reason.minute_rate_exceeded (count_within s.request_times now 60)
          L.REQUESTS_PER_MINUTE)
      ↔ (¬ (daily_after_rollover s.store now).daily_quota_used + cost > L.DAILY_QUOTA_LIMIT
          ∧ ¬ (hourly_after_rollover s.store now).hourly_quota_used + cost > L.HOURLY_QUOTA_LIMIT
          ∧ count_within s.request_times now 60 ≥ L.REQUESTS_PER_MINUTE))
    ∧ ((check_quota_availability L s cost now).1 =
        (false, Reason.burst_exceeded (count_within s.request_times now 1)
          L.REQUESTS_PER_SECOND)
      ↔ (¬ (daily_after_rollover s.store now).daily_quota_used + cost > L.DAILY_QUOTA_LIMIT
          ∧ ¬ (hourly_after_rollover s.store now).hourly_quota_used + cost > L.HOURLY_QUOTA_LIMIT
          ∧ ¬ count_within s.request_times now 60 ≥ L.REQUESTS_PER_MINUTE
          ∧ count_within s.request_times now 1 ≥ L.REQUESTS_PER_SECOND))
    ∧ ((check_quota_availability L s cost now).1 = (true, Reason.ok)
      ↔ (¬ (daily_after_rollover s.store now).daily_quota_used + cost > L.DAILY_QUOTA_LIMIT
          ∧ ¬ (hourly_after_rollover s.store now).hourly_quota_used + cost > L.HOURLY_QUOTA_LIMIT
          ∧ ¬ count_within s.request_times now 60 ≥ L.REQUESTS_PER_MINUTE
          ∧ ¬ count_within s.request_times now 1 ≥ L.REQUESTS_PER_SECOND)) := by
  have hfil := filter_within_filter s.request_times now 1 60 (by norm_num)
  unfold check_quota_availability daily_after_rollover hourly_after_rollover count_within
  dsimp only
  split_ifs with h1 h2 h3 h4 <;> simp_all [hfil]

theorem should_reset_fresh (tf : Timeframe) (now : ℚ) :
    should_reset_timeframe (freshUsage now) tf now = false := by
  cases tf <;> simp [should_reset_timeframe, freshUsage]

theorem get_current_usage_save_fresh (st : Store) (tf : Timeframe) (ttl : ℕ) (now : ℚ) :
    get_current_usage (save_usage st (freshUsage now) tf ttl) tf now = freshUsage now := by
  cases tf <;> cases hav : st.available <;>
    simp [get_current_usage, save_usage, cache_set_json, cache_get_json, hav]

/-- Claim C2: The claim requires fail-closed behaviour, but the code fails
open: with the Window Store unreachable (`cache_get_json` returns `None` on
every Redis-error branch), `check_quota_availability` treats usage as a
fresh zero-valued record and returns `allowed = true` with the OK reason —
no "unavailable" denial exists — while the dropped writes leave the durable
store untouched. -/
theorem check_admission_store_unreachable_allows :
    (check_quota_availability defaultLimits
        { store := { daily := none, hourly := none, available := false },
          request_times := [], last_request_time := 0 } 1 1000).1 = (true, Reason.ok)
    ∧ (check_quota_availability defaultLimits
        { store := { daily := none, hourly := none, available := false },
          request_times := [], last_request_time := 0 } 1 1000).2.store
      = { daily := none, hourly := none, available := false } := by
  constructor <;>
    norm_num [check_quota_availability, reset_timeframe_if_needed, get_current_usage,
      cache_get_json, save_usage, cache_set_json, should_reset_timeframe, freshUsage,
      defaultLimits, List.filter]

/-- Claim C3: The claim requires epoch-index rollover detection, but the code
compares wall-clock components: an hourly window left idle for 24 h 10 min
(window start 05:30 UTC, now 05:40 UTC the next day) has a different
epoch-hour index, yet `_should_reset_timeframe` sees equal hour-of-day
values and does not reset, so the stale usage is returned for admission. -/
theorem rollover_misses_full_day_gap :
    should_reset_timeframe ⟨500, 5, 19800, 0, 500, 0, 0⟩ .hourly 106800 = false
    ∧ epoch_window_index 3600 106800 ≠ epoch_window_index 3600 19800
    ∧ (reset_timeframe_if_needed
        { daily := none, hourly := some ⟨500, 5, 19800, 0, 500, 0, 0⟩, available := true }
        .hourly 106800)
      = (⟨500, 5, 19800, 0, 500, 0, 0⟩,
         { daily := none, hourly := some ⟨500, 5, 19800, 0, 500, 0, 0⟩, available := true }) := by
  have h1 : (⌊(106800 : ℚ) / 3600⌋ : ℤ) = 29 :=
    floor_div_eq _ _ _ (by norm_num) (by norm_num) (by norm_num)
  have h2 : (⌊(19800 : ℚ) / 3600⌋ : ℤ) = 5 :=
    floor_div_eq _ _ _ (by norm_num) (by norm_num) (by norm_num)
  refine ⟨?_, ?_, ?_⟩
  · norm_num [should_reset_timeframe, hour_of_day, h1, h2]
  · norm_num [epoch_window_index, h1, h2]
  · norm_num [reset_timeframe_if_needed, get_current_usage, cache_get_json,
      should_reset_timeframe, hour_of_day, h1, h2]

/-- Claim C5: If a window has expired, `_reset_timeframe_if_needed` returns a
window whose `total_quota_used` and `requests_made` are 0, and calling it a
second time in immediate succession returns the very same zero-valued
window and store: the second call performs no further reset. -/
theorem reset_rollover_idempotent (st : Store) (tf : Timeframe) (now : ℚ)
    (h : should_reset_timeframe (get_current_usage st tf now) tf now = true) :
    (reset_timeframe_if_needed st tf now).1.total_quota_used = 0
    ∧ (reset_timeframe_if_needed st tf now).1.requests_made = 0
    ∧ reset_timeframe_if_needed (reset_timeframe_if_needed st tf now).2 tf now
        = reset_timeframe_if_needed st tf now := by
  cases tf
  case daily =>
    have hstep : reset_timeframe_if_needed st .daily now
        = (freshUsage now, save_usage st (freshUsage now) .daily 86400) := by
      unfold reset_timeframe_if_needed
      simp [h]
    rw [hstep]
    refine ⟨rfl, rfl, ?_⟩
    unfold reset_timeframe_if_needed
    simp [get_current_usage_save_fresh, should_reset_fresh]
  case hourly =>
    have hstep : reset_timeframe_if_needed st .hourly now
        = (freshUsage now, save_usage st (freshUsage now) .hourly 3600) := by
      unfold reset_timeframe_if_needed
      simp [h]
    rw [hstep]
    refine ⟨rfl, rfl, ?_⟩
    unfold reset_timeframe_if_needed
    simp [get_current_usage_save_fresh, should_reset_fresh]

/-- Witness for C5: a concrete expired daily window (window start at the
epoch, checked a day later) satisfying the hypothesis and conclusion. -/
theorem reset_rollover_idempotent_witness :
    should_reset_timeframe (get_current_usage
        { daily := some ⟨50, 7, 0, 50, 0, 0, 0⟩, hourly := none, available := true }
        .daily 100000) .daily 100000 = true
    ∧ ((reset_timeframe_if_needed
          { daily := some ⟨50, 7, 0, 50, 0, 0, 0⟩, hourly := none, available := true }
          .daily 100000).1.total_quota_used = 0
      ∧ (reset_timeframe_if_needed
          { daily := some ⟨50, 7, 0, 50, 0, 0, 0⟩, hourly := none, available := true }
          .daily 100000).1.requests_made = 0
      ∧ reset_timeframe_if_needed
          (reset_timeframe_if_needed
            { daily := some ⟨50, 7, 0, 50, 0, 0, 0⟩, hourly := none, available := true }
            .daily 100000).2 .daily 100000
        = reset_timeframe_if_needed
            { daily := some ⟨50, 7, 0, 50, 0, 0, 0⟩, hourly := none, available := true }
            .daily 100000) := by
  have h1 : (⌊(100000 : ℚ) / 86400⌋ : ℤ) = 1 :=
    floor_div_eq _ _ _ (by norm_num) (by norm_num) (by norm_num)
  have h2 : (⌊(0 : ℚ) / 86400⌋ : ℤ) = 0 := by norm_num
  have hexp : should_reset_timeframe (get_current_usage
      { daily := some ⟨50, 7, 0, 50, 0, 0, 0⟩, hourly := none, available := true }
      .daily 100000) .daily 100000 = true := by
    norm_num [should_reset_timeframe, get_current_usage, cache_get_json, epoch_day, h1, h2]
  exact ⟨hexp, reset_rollover_idempotent _ _ _ hexp⟩

theorem record_request_store (L : QuotaLimits) (s : ManagerState) (qt : QuotaType)
    (b : Bool) (now : ℚ) (wd wh : QuotaUsage)
    (hav : s.store.available = true) (hd : s.store.daily = some wd)
    (hh : s.store.hourly = some wh) :
    (record_request L s qt b now).2 =
      { store := { daily := some (bump_usage wd .daily qt.value b)
                   hourly := some (bump_usage wh .hourly qt.value b)
                   available := true }
        request_times := s.request_times ++ [now]
        last_request_time := now } := by
  obtain ⟨⟨d, q, av⟩, times, lrt⟩ := s
  dsimp only at hav hd hh
  subst hav hd hh
  simp [record_request, get_current_usage, cache_get_json, save_usage, cache_set_json]

theorem run_records_accum (L : QuotaLimits) (calls : List (QuotaType × Bool × ℚ)) :
    ∀ (s : ManagerState) (wd wh : QuotaUsage),
      s.store.available = true → s.store.daily = some wd → s.store.hourly = some wh →
      (run_records L s calls).store =
        { daily := some { wd with
              total_quota_used := wd.total_quota_used + total_cost calls
              daily_quota_used := wd.daily_quota_used + total_cost calls
              requests_made := wd.requests_made + calls.length
              errors_count := wd.errors_count + failure_count calls }
          hourly := some { wh with
              total_quota_used := wh.total_quota_used + total_cost calls
              hourly_quota_used := wh.hourly_quota_used + total_cost calls
              requests_made := wh.requests_made + calls.length
              errors_count := wh.errors_count + failure_count calls }
          available := true }
      ∧ (run_records L s calls).request_times = s.request_times ++ call_times calls := by
  induction calls with
  | nil =>
      intro s wd wh hav hd hh
      obtain ⟨⟨d, q, av⟩, times, lrt⟩ := s
      dsimp only at hav hd hh
      subst hav hd hh
      simp [run_records, total_cost, failure_count, call_times]
  | cons c rest ih =>
      intro s wd wh hav hd hh
      obtain ⟨qt, b, tnow⟩ := c
      have hrec := record_request_store L s qt b tnow wd wh hav hd hh
      have hstep : run_records L s ((qt, b, tnow) :: rest)
          = run_records L (record_request L s qt b tnow).2 rest := rfl
      rw [hstep, hrec]
      obtain ⟨ihst, ihtimes⟩ := ih
        { store := { daily := some (bump_usage wd .daily qt.value b)
                     hourly := some (bump_usage wh .hourly qt.value b)
                     available := true }
          request_times := s.request_times ++ [tnow]
          last_request_time := tnow }
        (bump_usage wd .daily qt.value b) (bump_usage wh .hourly qt.value b) rfl rfl rfl
      constructor
      · rw [ihst]
        cases b <;>
          simp [bump_usage, total_cost, failure_count, Store.mk.injEq,
            QuotaUsage.mk.injEq, List.countP_cons] <;> omega
      · rw [ihtimes]
        simp [call_times]

/-- Claim C4: For every sequence of recorded calls within one window's
lifetime (starting from fresh zero-valued stored windows, with the store
reachable), the stored daily and hourly windows end with scope usage and
`total_quota_used` equal to the sum of the recorded costs, `requests_made`
equal to the number of calls, and `errors_count` equal to the number of
failed calls — identically for both scopes — and every call's timestamp is
appended to the burst tracker in order. -/
theorem record_outcome_totals (L : QuotaLimits) (s : ManagerState)
    (calls : List (QuotaType × Bool × ℚ)) (t0 t1 : ℚ)
    (hav : s.store.available = true)
    (hd : s.store.daily = some (freshUsage t0))
    (hh : s.store.hourly = some (freshUsage t1)) :
    ∃ ud uh,
      (run_records L s calls).store.daily = some ud
      ∧ (run_records L s calls).store.hourly = some uh
      ∧ ud.daily_quota_used = total_cost calls
      ∧ ud.total_quota_used = total_cost calls
      ∧ ud.requests_made = calls.length
      ∧ ud.errors_count = failure_count calls
      ∧ uh.hourly_quota_used = total_cost calls
      ∧ uh.total_quota_used = total_cost calls
      ∧ uh.requests_made = calls.length
      ∧ uh.errors_count = failure_count calls
      ∧ (run_records L s calls).request_times = s.request_times ++ call_times calls := by
  obtain ⟨hst, htimes⟩ := run_records_accum L calls s _ _ hav hd hh
  rw [hst]
  exact ⟨_, _, rfl, rfl, by simp [freshUsage], by simp [freshUsage], by simp [freshUsage],
    by simp [freshUsage], by simp [freshUsage], by simp [freshUsage], by simp [freshUsage],
    by simp [freshUsage], htimes⟩

/-- Witness for C4: two concrete recorded calls (costs 1 and 100, the
second failed) starting from fresh windows. -/
theorem record_outcome_totals_witness :
    ∃ ud uh,
      (run_records defaultLimits
        { store := { daily := some (freshUsage 0), hourly := some (freshUsage 0)
                     available := true }
          request_times := [], last_request_time := 0 }
        [(QuotaType.VIDEO_STATS, true, 10), (QuotaType.CHANNEL_SEARCH, false, 11)]).store.daily
        = some ud
      ∧ (run_records defaultLimits
        { store := { daily := some (freshUsage 0), hourly := some (freshUsage 0)
                     available := true }
          request_times := [], last_request_time := 0 }
        [(QuotaType.VIDEO_STATS, true, 10), (QuotaType.CHANNEL_SEARCH, false, 11)]).store.hourly
        = some uh
      ∧ ud.daily_quota_used = total_cost
          [(QuotaType.VIDEO_STATS, true, 10), (QuotaType.CHANNEL_SEARCH, false, 11)]
      ∧ ud.total_quota_used = total_cost
          [(QuotaType.VIDEO_STATS, true, 10), (QuotaType.CHANNEL_SEARCH, false, 11)]
      ∧ ud.requests_made =
          ([(QuotaType.VIDEO_STATS, true, (10 : ℚ)), (QuotaType.CHANNEL_SEARCH, false, 11)]).length
      ∧ ud.errors_count = failure_count
          [(QuotaType.VIDEO_STATS, true, 10), (QuotaType.CHANNEL_SEARCH, false, 11)]
      ∧ uh.hourly_quota_used = total_cost
          [(QuotaType.VIDEO_STATS, true, 10), (QuotaType.CHANNEL_SEARCH, false, 11)]
      ∧ uh.total_quota_used = total_cost
          [(QuotaType.VIDEO_STATS, true, 10), (QuotaType.CHANNEL_SEARCH, false, 11)]
      ∧ uh.requests_made =
          ([(QuotaType.VIDEO_STATS, true, (10 : ℚ)), (QuotaType.CHANNEL_SEARCH, false, 11)]).length
      ∧ uh.errors_count = failure_count
          [(QuotaType.VIDEO_STATS, true, 10), (QuotaType.CHANNEL_SEARCH, false, 11)]
      ∧ (run_records defaultLimits
        { store := { daily := some (freshUsage 0), hourly := some (freshUsage 0)
                     available := true }
          request_times := [], last_request_time := 0 }
        [(QuotaType.VIDEO_STATS, true, 10), (QuotaType.CHANNEL_SEARCH, false, 11)]).request_times
        = [] ++ call_times
            [(QuotaType.VIDEO_STATS, true, 10), (QuotaType.CHANNEL_SEARCH, false, 11)] :=
  record_outcome_totals defaultLimits _ _ 0 0 rfl rfl rfl

/-- Claim C6, amended: `record_request` applies its increments to the stored
windows as they are, performing no rollover check: for each scope the cost,
the request count, and (on failure) the error count are added onto the
existing — possibly stale — counters, and the stored window-start
(`last_reset_time`) is left unchanged. -/
theorem record_request_no_rollover_check (L : QuotaLimits) (s : ManagerState)
    (qt : QuotaType) (b : Bool) (now : ℚ) (wd wh : QuotaUsage)
    (hav : s.store.available = true) (hd : s.store.daily = some wd)
    (hh : s.store.hourly = some wh) :
    ∃ ud uh,
      (record_request L s qt b now).2.store.daily = some ud
      ∧ (record_request L s qt b now).2.store.hourly = some uh
      ∧ ud.last_reset_time = wd.last_reset_time
      ∧ ud.daily_quota_used = wd.daily_quota_used + qt.value
      ∧ ud.requests_made = wd.requests_made + 1
      ∧ ud.errors_count = wd.errors_count + (if b then 0 else 1)
      ∧ uh.last_reset_time = wh.last_reset_time
      ∧ uh.hourly_quota_used = wh.hourly_quota_used + qt.value
      ∧ uh.requests_made = wh.requests_made + 1
      ∧ uh.errors_count = wh.errors_count + (if b then 0 else 1) := by
  rw [record_request_store L s qt b now wd wh hav hd hh]
  refine ⟨_, _, rfl, rfl, ?_, ?_, ?_, ?_, ?_, ?_, ?_, ?_⟩ <;> simp [bump_usage]

/-- Counterexample for C6 as claimed: with the stored daily window expired
(window start at the epoch, recording at t = 100000 s, i.e. the next day),
`record_request` adds onto the stale counters — the stored daily record
becomes `⟨51, 8, 0, 51, 0, 0, 0⟩`, keeping window start 0 — instead of a
fresh zero-valued window holding only the recorded cost 1 with window
start `now`. -/
theorem record_request_stale_window_cex :
    should_reset_timeframe ⟨50, 7, 0, 50, 0, 0, 0⟩ .daily 100000 = true
    ∧ (record_request defaultLimits
        { store := { daily := some ⟨50, 7, 0, 50, 0, 0, 0⟩
                     hourly := some ⟨50, 7, 0, 0, 50, 0, 0⟩, available := true }
          request_times := [], last_request_time := 0 }
        .VIDEO_STATS true 100000).2.store.daily
      = some ⟨51, 8, 0, 51, 0, 0, 0⟩
    ∧ (51 : ℕ) ≠ QuotaType.VIDEO_STATS.value
    ∧ (0 : ℚ) ≠ 100000 := by
  have h1 : (⌊(100000 : ℚ) / 86400⌋ : ℤ) = 1 :=
    floor_div_eq _ _ _ (by norm_num) (by norm_num) (by norm_num)
  refine ⟨?_, ?_, by norm_num [QuotaType.value], by norm_num⟩
  · norm_num [should_reset_timeframe, epoch_day, h1]
  · norm_num [record_request, get_current_usage, cache_get_json, save_usage,
      cache_set_json, bump_usage, QuotaType.value]

/-- Witness for the amended C6: the same expired-window state satisfies the
hypotheses and the amended conclusion. -/
theorem record_request_no_rollover_check_witness :
    ∃ ud uh,
      (record_request defaultLimits
        { store := { daily := some ⟨50, 7, 0, 50, 0, 0, 0⟩
                     hourly := some ⟨50, 7, 0, 0, 50, 0, 0⟩, available := true }
          request_times := [], last_request_time := 0 }
        .VIDEO_STATS true 100000).2.store.daily = some ud
      ∧ (record_request defaultLimits
        { store := { daily := some ⟨50, 7, 0, 50, 0, 0, 0⟩
                     hourly := some ⟨50, 7, 0, 0, 50, 0, 0⟩, available := true }
          request_times := [], last_request_time := 0 }
        .VIDEO_STATS true 100000).2.store.hourly = some uh
      ∧ ud.last_reset_time = (⟨50, 7, 0, 50, 0, 0, 0⟩ : QuotaUsage).last_reset_time
      ∧ ud.daily_quota_used
          = (⟨50, 7, 0, 50, 0, 0, 0⟩ : QuotaUsage).daily_quota_used + QuotaType.VIDEO_STATS.value
      ∧ ud.requests_made = (⟨50, 7, 0, 50, 0, 0, 0⟩ : QuotaUsage).requests_made + 1
      ∧ ud.errors_count
          = (⟨50, 7, 0, 50, 0, 0, 0⟩ : QuotaUsage).errors_count + (if true then 0 else 1)
      ∧ uh.last_reset_time = (⟨50, 7, 0, 0, 50, 0, 0⟩ : QuotaUsage).last_reset_time
      ∧ uh.hourly_quota_used
          = (⟨50, 7, 0, 0, 50, 0, 0⟩ : QuotaUsage).hourly_quota_used + QuotaType.VIDEO_STATS.value
      ∧ uh.requests_made = (⟨50, 7, 0, 0, 50, 0, 0⟩ : QuotaUsage).requests_made + 1
      ∧ uh.errors_count
          = (⟨50, 7, 0, 0, 50, 0, 0⟩ : QuotaUsage).errors_count + (if true then 0 else 1) :=
  record_request_no_rollover_check defaultLimits _ .VIDEO_STATS true 100000 _ _ rfl rfl rfl

/-- Claim C7: `get_required_delay` returns the remaining 200 ms spacing when
less than 200 ms have elapsed since the most recent recorded call;
otherwise 1 s when the count of recorded calls in the last 60 s exceeds
80 % of the per-minute limit, 500 ms when it exceeds 60 %, and zero in all
other cases. -/
theorem get_required_delay_spec (L : QuotaLimits) (s : ManagerState) (now : ℚ) :
    (now - s.last_request_time < 0.2 →
      (get_required_delay L s now).1 = 0.2 - (now - s.last_request_time))
    ∧ (0.2 ≤ now - s.last_request_time →
        (((count_within s.request_times now 60 : ℚ) > (L.REQUESTS_PER_MINUTE : ℚ) * 0.8 →
            (get_required_delay L s now).1 = 1)
          ∧ (((count_within s.request_times now 60 : ℚ) ≤ (L.REQUESTS_PER_MINUTE : ℚ) * 0.8
              ∧ (count_within s.request_times now 60 : ℚ) > (L.REQUESTS_PER_MINUTE : ℚ) * 0.6) →
            (get_required_delay L s now).1 = 0.5)
          ∧ ((count_within s.request_times now 60 : ℚ) ≤ (L.REQUESTS_PER_MINUTE : ℚ) * 0.6 →
            (get_required_delay L s now).1 = 0))) := by
  have hL : (0 : ℚ) ≤ (L.REQUESTS_PER_MINUTE : ℚ) := Nat.cast_nonneg _
  unfold get_required_delay count_within
  dsimp only
  split_ifs with h1 h2 h3 <;>
    refine ⟨fun ha => ?_, fun hb => ⟨fun hc => ?_, fun hcd => ?_, fun he => ?_⟩⟩ <;>
    first
      | rfl
      | (exfalso; obtain ⟨hc1, hc2⟩ := hcd) <;> linarith
      | linarith

/-- Witness for C7: 100 ms after the last recorded call, the returned delay
is the remaining 100 ms. -/
theorem get_required_delay_spec_witness :
    ((10.1 : ℚ) - 10 < 0.2)
    ∧ (get_required_delay defaultLimits
        { store := { daily := none, hourly := none, available := true }
          request_times := [], last_request_time := 10 } 10.1).1
      = 0.2 - ((10.1 : ℚ) - 10) :=
  ⟨by norm_num,
    (get_required_delay_spec defaultLimits
      { store := { daily := none, hourly := none, available := true }
        request_times := [], last_request_time := 10 } 10.1).1 (by norm_num)⟩

/-- Claim C8: A warning is emitted for a scope exactly when that scope's
updated usage is at or above its warning threshold and strictly below its
hard limit; `record_request` returns exactly the warnings computed from its
updated usages; and the warning configuration has no effect on the
resulting state (warnings change no counter and no admission data). -/
theorem warning_threshold_spec (L : QuotaLimits) (du hu : QuotaUsage)
    (s : ManagerState) (qt : QuotaType) (b : Bool) (now : ℚ) :
    ((∃ u lim, Warning.daily u lim ∈ check_warning_thresholds L du hu) ↔
        (L.DAILY_WARNING_THRESHOLD ≤ du.daily_quota_used
          ∧ du.daily_quota_used < L.DAILY_QUOTA_LIMIT))
    ∧ ((∃ u lim, Warning.hourly u lim ∈ check_warning_thresholds L du hu) ↔
        (L.HOURLY_WARNING_THRESHOLD ≤ hu.hourly_quota_used
          ∧ hu.hourly_quota_used < L.HOURLY_QUOTA_LIMIT))
    ∧ (record_request L s qt b now).1 =
        check_warning_thresholds L
          (bump_usage (get_current_usage s.store .daily now) .daily qt.value b)
          (bump_usage (get_current_usage
              (save_usage s.store
                (bump_usage (get_current_usage s.store .daily now) .daily qt.value b)
                .daily 86400) .hourly now) .hourly qt.value b)
    ∧ (∀ L' : QuotaLimits,
        (record_request L s qt b now).2 = (record_request L' s qt b now).2) := by
  refine ⟨?_, ?_, rfl, fun L' => rfl⟩ <;>
    · unfold check_warning_thresholds
      split_ifs with h1 h2 h3 h4 <;> simp_all

theorem reset_timeframe_if_needed_noop (st : Store) (tf : Timeframe) (now : ℚ)
    (h : should_reset_timeframe (get_current_usage st tf now) tf now = false) :
    reset_timeframe_if_needed st tf now = (get_current_usage st tf now, st) := by
  unfold reset_timeframe_if_needed
  simp [h]

/-- Claim C9, amended: `get_quota_status` returns the daily, hourly and burst
figures computed from the rollover-checked windows; when no window has
expired and no retained burst timestamp is older than 60 s, it leaves the
manager state — the durable records and the burst tracker — entirely
unchanged.  (As claimed, without those provisos, it is false: the lazy
rollover persists a fresh window, see the counterexample.) -/
theorem get_quota_status_frame (L : QuotaLimits) (s : ManagerState) (now : ℚ)
    (hd : should_reset_timeframe (get_current_usage s.store .daily now) .daily now = false)
    (hh : should_reset_timeframe (get_current_usage s.store .hourly now) .hourly now = false)
    (ht : ∀ t ∈ s.request_times, now - t < 60) :
    (get_quota_status L s now).2 = s
    ∧ (get_quota_status L s now).1.daily.used
        = (get_current_usage s.store .daily now).daily_quota_used
    ∧ (get_quota_status L s now).1.daily.requests_made
        = (get_current_usage s.store .daily now).requests_made
    ∧ (get_quota_status L s now).1.daily.errors
        = (get_current_usage s.store .daily now).errors_count
    ∧ (get_quota_status L s now).1.hourly.used
        = (get_current_usage s.store .hourly now).hourly_quota_used
    ∧ (get_quota_status L s now).1.rate_limiting.requests_last_minute
        = count_within s.request_times now 60
    ∧ (get_quota_status L s now).1.rate_limiting.requests_last_second
        = count_within s.request_times now 1 := by
  have hfil : s.request_times.filter (fun t => now - t < 60) = s.request_times :=
    List.filter_eq_self.mpr (fun a ha => decide_eq_true (ht a ha))
  obtain ⟨st, times, lrt⟩ := s
  dsimp only at hd hh hfil ⊢
  unfold get_quota_status count_within
  dsimp only
  rw [reset_timeframe_if_needed_noop st .daily now hd,
    reset_timeframe_if_needed_noop st .hourly now hh, hfil]
  exact ⟨rfl, rfl, rfl, rfl, rfl, rfl, rfl⟩

/-- Counterexample for C9 as claimed: `get_quota_status` is not read-only.
With the stored daily window expired (window start at the epoch, status
read at t = 100000 s the next day), the read persists a fresh zero-valued
daily window over the durable record. -/
theorem get_quota_status_rollover_write_cex :
    (get_quota_status defaultLimits
        { store := { daily := some ⟨50, 7, 0, 50, 0, 0, 0⟩
                     hourly := some (freshUsage 100000), available := true }
          request_times := [], last_request_time := 0 } 100000).2.store.daily
      = some (freshUsage 100000)
    ∧ some (freshUsage 100000) ≠ some (⟨50, 7, 0, 50, 0, 0, 0⟩ : QuotaUsage) := by
  have h1 : (⌊(100000 : ℚ) / 86400⌋ : ℤ) = 1 :=
    floor_div_eq _ _ _ (by norm_num) (by norm_num) (by norm_num)
  constructor
  · norm_num [get_quota_status, reset_timeframe_if_needed, get_current_usage,
      cache_get_json, save_usage, cache_set_json, should_reset_timeframe,
      epoch_day, freshUsage, h1]
  · simp [freshUsage]

/-- Witness for the amended C9: a state whose windows are current and whose
single burst timestamp is 10 s old is returned unchanged. -/
theorem get_quota_status_frame_witness :
    (get_quota_status defaultLimits
        { store := { daily := some (freshUsage 1000), hourly := some (freshUsage 1000)
                     available := true }
          request_times := [990], last_request_time := 990 } 1000).2
      = { store := { daily := some (freshUsage 1000), hourly := some (freshUsage 1000)
                     available := true }
          request_times := [990], last_request_time := 990 } :=
  (get_quota_status_frame defaultLimits
    { store := { daily := some (freshUsage 1000), hourly := some (freshUsage 1000)
                 available := true }
      request_times := [990], last_request_time := 990 } 1000
    (should_reset_fresh .daily 1000) (should_reset_fresh .hourly 1000)
    (by intro t htt; simp only [List.mem_singleton] at htt; subst htt; norm_num)).1

theorem bump_usage_rlc (u : QuotaUsage) (tf : Timeframe) (v : ℕ) (b : Bool) :
    (bump_usage u tf v b).rate_limited_count = u.rate_limited_count := by
  cases tf <;> simp [bump_usage]

theorem rlc_zero_get (st : Store) (tf : Timeframe) (now : ℚ) (h : rlc_zero st) :
    (get_current_usage st tf now).rate_limited_count = 0 := by
  obtain ⟨d, q, av⟩ := st
  obtain ⟨h1, h2⟩ := h
  cases tf <;> cases av <;> cases d <;> cases q <;>
    simp_all [get_current_usage, cache_get_json, freshUsage]

theorem rlc_zero_save (st : Store) (u : QuotaUsage) (tf : Timeframe) (ttl : ℕ)
    (h : rlc_zero st) (hu : u.rate_limited_count = 0) :
    rlc_zero (save_usage st u tf ttl) := by
  obtain ⟨d, q, av⟩ := st
  obtain ⟨h1, h2⟩ := h
  cases tf <;> cases av <;>
    exact ⟨fun w hw => by simp_all [save_usage, cache_set_json],
      fun w hw => by simp_all [save_usage, cache_set_json]⟩

theorem rlc_zero_reset (st : Store) (tf : Timeframe) (now : ℚ) (h : rlc_zero st) :
    rlc_zero (reset_timeframe_if_needed st tf now).2 := by
  cases tf <;>
    · unfold reset_timeframe_if_needed
      dsimp only
      split_ifs with hr
      · exact rlc_zero_save _ _ _ _ h rfl
      · exact h

theorem check_quota_availability_store (L : QuotaLimits) (s : ManagerState)
    (cost : ℕ) (now : ℚ) :
    (check_quota_availability L s cost now).2.store
      = (reset_timeframe_if_needed (reset_timeframe_if_needed s.store .daily now).2
          .hourly now).2 := by
  unfold check_quota_availability
  dsimp only
  split_ifs <;> rfl

/-- Claim C10, amended: `rate_limited_count` is never updated by any
operation: if every stored window has `rate_limited_count = 0`, then after
an admission check (whether it denies or allows), after recording a
request, and after a status read, every stored window still has
`rate_limited_count = 0` — in particular a denied call is reflected in no
window's `rate_limited_count`. -/
theorem rate_limited_count_never_updated (L : QuotaLimits) (s : ManagerState)
    (cost : ℕ) (qt : QuotaType) (b : Bool) (now : ℚ) (h : rlc_zero s.store) :
    rlc_zero (check_quota_availability L s cost now).2.store
    ∧ rlc_zero (record_request L s qt b now).2.store
    ∧ rlc_zero (get_quota_status L s now).2.store := by
  have hreset2 : rlc_zero (reset_timeframe_if_needed
      (reset_timeframe_if_needed s.store .daily now).2 .hourly now).2 :=
    rlc_zero_reset _ _ _ (rlc_zero_reset _ _ _ h)
  refine ⟨?_, ?_, ?_⟩
  · rw [check_quota_availability_store]
    exact hreset2
  · have hd0 := rlc_zero_get s.store .daily now h
    have hst1 : rlc_zero (save_usage s.store
        (bump_usage (get_current_usage s.store .daily now) .daily qt.value b)
        .daily 86400) :=
      rlc_zero_save _ _ _ _ h (by rw [bump_usage_rlc]; exact hd0)
    exact rlc_zero_save _ _ _ _ hst1
      (by rw [bump_usage_rlc]; exact rlc_zero_get _ .hourly now hst1)
  · exact hreset2

/-- Counterexample for C10 as claimed: with the daily budget exhausted
(10000/10000, window current), the admission check for cost 1 is denied,
yet the stored daily window afterwards still has `rate_limited_count = 0` —
the blocked call is reflected in no stored window. -/
theorem rate_limited_count_cex :
    (check_quota_availability defaultLimits
        { store := { daily := some ⟨10000, 10, 1000, 10000, 0, 0, 0⟩
                     hourly := some ⟨0, 0, 1000, 0, 0, 0, 0⟩, available := true }
          request_times := [], last_request_time := 0 } 1 1000).1.1 = false
    ∧ (check_quota_availability defaultLimits
        { store := { daily := some ⟨10000, 10, 1000, 10000, 0, 0, 0⟩
                     hourly := some ⟨0, 0, 1000, 0, 0, 0, 0⟩, available := true }
          request_times := [], last_request_time := 0 } 1 1000).2.store.daily
      = some ⟨10000, 10, 1000, 10000, 0, 0, 0⟩
    ∧ (⟨10000, 10, 1000, 10000, 0, 0, 0⟩ : QuotaUsage).rate_limited_count = 0 := by
  refine ⟨?_, ?_, rfl⟩ <;>
    norm_num [check_quota_availability, reset_timeframe_if_needed, get_current_usage,
      cache_get_json, save_usage, cache_set_json, should_reset_timeframe,
      defaultLimits]

/-- Witness for the amended C10: the exhausted-budget state (all stored
`rate_limited_count` fields 0) keeps them 0 through a denied check, a
record, and a status read. -/
theorem rate_limited_count_never_updated_witness :
    rlc_zero (check_quota_availability defaultLimits
        { store := { daily := some ⟨10000, 10, 1000, 10000, 0, 0, 0⟩
                     hourly := some ⟨0, 0, 1000, 0, 0, 0, 0⟩, available := true }
          request_times := [], last_request_time := 0 } 1 1000).2.store
    ∧ rlc_zero (record_request defaultLimits
        { store := { daily := some ⟨10000, 10, 1000, 10000, 0, 0, 0⟩
                     hourly := some ⟨0, 0, 1000, 0, 0, 0, 0⟩, available := true }
          request_times := [], last_request_time := 0 } .VIDEO_STATS true 1000).2.store
    ∧ rlc_zero (get_quota_status defaultLimits
        { store := { daily := some ⟨10000, 10, 1000, 10000, 0, 0, 0⟩
                     hourly := some ⟨0, 0, 1000, 0, 0, 0, 0⟩, available := true }
          request_times := [], last_request_time := 0 } 1000).2.store :=
  rate_limited_count_never_updated defaultLimits _ 1 .VIDEO_STATS true 1000
    ⟨fun u hu => by injection hu with hw; rw [← hw],
      fun u hu => by injection hu with hw; rw [← hw]⟩

/-- Witness for C1 (spec Scenario A): with `dailyLimit = 100` and 90 units
used in a current window, cost 5 is allowed (95 ≤ 100) and cost 15 is
denied with the daily reason (105 > 100). -/
theorem check_admission_layered_witness :
    (check_quota_availability ⟨100, 1000, 300, 5, 80, 800⟩
        { store := { daily := some ⟨90, 2, 1000, 90, 0, 0, 0⟩
                     hourly := some ⟨90, 2, 1000, 0, 90, 0, 0⟩, available := true }
          request_times := [], last_request_time := 0 } 5 1000).1 = (true, Reason.ok)
    ∧ (check_quota_availability ⟨100, 1000, 300, 5, 80, 800⟩
        { store := { daily := some ⟨90, 2, 1000, 90, 0, 0, 0⟩
                     hourly := some ⟨90, 2, 1000, 0, 90, 0, 0⟩, available := true }
          request_times := [], last_request_time := 0 } 15 1000).1
      = (false, Reason.daily_exceeded 90 100) := by
  have hda : daily_after_rollover
      { daily := some ⟨90, 2, 1000, 90, 0, 0, 0⟩
        hourly := some ⟨90, 2, 1000, 0, 90, 0, 0⟩, available := true } 1000
      = ⟨90, 2, 1000, 90, 0, 0, 0⟩ := by
    norm_num [daily_after_rollover, reset_timeframe_if_needed, get_current_usage,
      cache_get_json, should_reset_timeframe]
  have hha : hourly_after_rollover
      { daily := some ⟨90, 2, 1000, 90, 0, 0, 0⟩
        hourly := some ⟨90, 2, 1000, 0, 90, 0, 0⟩, available := true } 1000
      = ⟨90, 2, 1000, 0, 90, 0, 0⟩ := by
    norm_num [hourly_after_rollover, reset_timeframe_if_needed, get_current_usage,
      cache_get_json, should_reset_timeframe]
  constructor
  · exact (check_admission_layered ⟨100, 1000, 300, 5, 80, 800⟩
      { store := { daily := some ⟨90, 2, 1000, 90, 0, 0, 0⟩
                   hourly := some ⟨90, 2, 1000, 0, 90, 0, 0⟩, available := true }
        request_times := [], last_request_time := 0 } 5 1000).2.2.2.2.mpr
      ⟨by rw [hda]; norm_num, by rw [hha]; norm_num,
        by norm_num [count_within, List.filter], by norm_num [count_within, List.filter]⟩
  · have hd15 := (check_admission_layered ⟨100, 1000, 300, 5, 80, 800⟩
      { store := { daily := some ⟨90, 2, 1000, 90, 0, 0, 0⟩
                   hourly := some ⟨90, 2, 1000, 0, 90, 0, 0⟩, available := true }
        request_times := [], last_request_time := 0 } 15 1000).1.mpr
      (by rw [hda]; norm_num)
    rw [hda] at hd15
    exact hd15
